import Mathlib

/-!
# Logging service: log entries and `Logger.updateParams`

A verification development for
`cli_tools/common/utils/logging/service/log_entry.go`.

Modelling conventions.

* The embedded `*CommonParams` of a parameter record is an `Option Addr`: `none`
  is `nil`, `some a` is the address of a `CommonParams` record held in a
  `Memory`.  Two records may hold the same address: a write through one pointer
  is then seen through the other, as in Go.
* The variant pointers of `InputParams` have pairwise different types, so no two
  of them can refer to the same record; they are held as `Option` values.  So
  are the pointers that `updateParams` never writes through.
* `string` is `String`, `bool` is `Bool`, `int64` is `Int`, a slice is a `List`.
* A nil dereference is a Go run-time panic; a run of `updateParams` ends in an
  `Outcome` that records whether the call returned or panicked and the state it
  left behind.
* `pb.InspectionResults` is declared in the `pb` package; the records are
  parametric in that type (`IR`).  `Hash` is declared elsewhere in package
  `service`; `updateParams` takes it as a parameter.
-/

namespace Service

/-! ## Data model -/

/-- The address of a `CommonParams` record. -/
abbrev Addr := Nat

/-- CommonParams is only used to organize the code without impacting hierarchy of data. -/
structure CommonParams where
  ClientID : String
  ClientVersion : String
  Network : String
  Subnet : String
  Zone : String
  Timeout : String
  Project : String
  ObfuscatedProject : String
  Labels : String
  ScratchBucketGcsPath : String
  Oauth : String
  ComputeEndpointOverride : String
  DisableGcsLogging : Bool
  DisableCloudLogging : Bool
  DisableStdoutLogging : Bool
  deriving DecidableEq

/-- ImageImportParams contains all input params for image import. -/
structure ImageImportParams (IR : Type) where
  CommonParams : Option Addr
  ImageName : String
  DataDisk : Bool
  OS : String
  SourceFile : String
  SourceImage : String
  NoGuestEnvironment : Bool
  Family : String
  Description : String
  NoExternalIP : Bool
  HasKmsKey : Bool
  HasKmsKeyring : Bool
  HasKmsLocation : Bool
  HasKmsProject : Bool
  StorageLocation : String
  InspectionResults : Option IR
  ComputeServiceAccount : String
  deriving DecidableEq

/-- ImageExportParams contains all input params for image export. -/
structure ImageExportParams where
  CommonParams : Option Addr
  DestinationURI : String
  SourceImage : String
  Format : String
  ComputeServiceAccount : String
  SourceDiskSnapshot : String
  deriving DecidableEq

/-- OnestepImageImportParams contains all input params for onestep image import. -/
structure OnestepImageImportParams where
  CommonParams : Option Addr
  ImageName : String
  OS : String
  NoGuestEnvironment : Bool
  Family : String
  Description : String
  NoExternalIP : Bool
  HasKmsKey : Bool
  HasKmsKeyring : Bool
  HasKmsLocation : Bool
  HasKmsProject : Bool
  StorageLocation : String
  ComputeServiceAccount : String
  AWSAMIID : String
  AWSAMIExportLocation : String
  AWSSourceAMIFilePath : String
  deriving DecidableEq

/-- InstanceImportParams contains all input params for instance import. -/
structure InstanceImportParams where
  CommonParams : Option Addr
  InstanceName : String
  OvfGcsPath : String
  CanIPForward : Bool
  DeletionProtection : Bool
  MachineType : String
  NetworkInterface : String
  NetworkTier : String
  PrivateNetworkIP : String
  NoExternalIP : Bool
  NoRestartOnFailure : Bool
  OS : String
  ShieldedIntegrityMonitoring : Bool
  ShieldedSecureBoot : Bool
  ShieldedVtpm : Bool
  Tags : String
  HasBootDiskKmsKey : Bool
  HasBootDiskKmsKeyring : Bool
  HasBootDiskKmsLocation : Bool
  HasBootDiskKmsProject : Bool
  NoGuestEnvironment : Bool
  NodeAffinityLabel : String
  ComputeServiceAccount : String
  deriving DecidableEq

/-- MachineImageImportParams contains all input params for machine image import. -/
structure MachineImageImportParams where
  CommonParams : Option Addr
  MachineImageName : String
  OvfGcsPath : String
  CanIPForward : Bool
  DeletionProtection : Bool
  MachineType : String
  NetworkInterface : String
  NetworkTier : String
  PrivateNetworkIP : String
  NoExternalIP : Bool
  NoRestartOnFailure : Bool
  OS : String
  ShieldedIntegrityMonitoring : Bool
  ShieldedSecureBoot : Bool
  ShieldedVtpm : Bool
  Tags : String
  HasBootDiskKmsKey : Bool
  HasBootDiskKmsKeyring : Bool
  HasBootDiskKmsLocation : Bool
  HasBootDiskKmsProject : Bool
  NoGuestEnvironment : Bool
  NodeAffinityLabel : String
  Hostname : String
  MachineImageStorageLocation : String
  ComputeServiceAccount : String
  deriving DecidableEq

/-- WindowsUpgradeParams contains all input params for windows upgrade. -/
structure WindowsUpgradeParams where
  CommonParams : Option Addr
  SourceOS : String
  TargetOS : String
  Instance : String
  CreateMachineBackup : Bool
  AutoRollback : Bool
  UseStagingInstallMedia : Bool
  deriving DecidableEq

/-- InstanceExportParams contains all input params for instance export. -/
structure InstanceExportParams where
  CommonParams : Option Addr
  DestinationURI : String
  InstanceName : String
  OvfFormat : String
  DiskExportFormat : String
  NoExternalIP : Bool
  OS : String
  deriving DecidableEq

/-- MachineImageExportParams contains all input params for instance export. -/
structure MachineImageExportParams where
  CommonParams : Option Addr
  DestinationURI : String
  MachineImageName : String
  OvfFormat : String
  DiskExportFormat : String
  NoExternalIP : Bool
  OS : String
  deriving DecidableEq

/-- InputParams contains the union of all APIs' param info. -/
structure InputParams (IR : Type) where
  ImageImportParams : Option (ImageImportParams IR)
  ImageExportParams : Option ImageExportParams
  InstanceImportParams : Option InstanceImportParams
  MachineImageImportParams : Option MachineImageImportParams
  WindowsUpgradeParams : Option WindowsUpgradeParams
  OnestepImageImportParams : Option OnestepImageImportParams
  InstanceExportParams : Option InstanceExportParams
  MachineImageExportParams : Option MachineImageExportParams
  deriving DecidableEq

/-- OutputInfo contains output values from the tools execution. -/
structure OutputInfo where
  SourcesSizeGb : List Int
  TargetsSizeGb : List Int
  FailureMessage : String
  FailureMessageWithoutPrivacyInfo : String
  ImportFileFormat : String
  SerialOutputs : List String
  InflationType : String
  InflationTime : List Int
  ShadowInflationTime : List Int
  ShadowDiskMatchResult : String
  IsUEFICompatibleImage : Bool
  IsUEFIDetected : Bool
  deriving DecidableEq

/-- ComputeImageToolsLogExtension contains all log info. -/
structure ComputeImageToolsLogExtension (IR : Type) where
  ID : String
  CloudBuildID : String
  ToolAction : String
  Status : String
  ElapsedTimeMs : Int
  EventTimeMs : Int
  InputParams : Option (InputParams IR)
  OutputInfo : Option OutputInfo
  deriving DecidableEq

/-- Modelled from the spec: the `Logger` type is declared outside this file.
`updateParams` reads only its `Params` field, the parameter union, held by
value.  The `mutex` field is taken on entry and released by the deferred
`Unlock` on every exit; in a sequential run it is free before and after the
call, so it carries no state here. -/
structure Logger (IR : Type) where
  Params : InputParams IR
  deriving DecidableEq

/-- The memory holding the `CommonParams` records: the record at each address. -/
abbrev Memory := Addr → CommonParams

/-- The memory with the record at address `a` replaced by `c`. -/
def write (m : Memory) (a : Addr) (c : CommonParams) : Memory :=
  fun b => if b = a then c else m b

/-- A logger together with the memory its embedded pointers refer to. -/
structure State (IR : Type) where
  logger : Logger IR
  mem : Memory

/-! ## `updateParams` -/

/-- How a call ended, with the state it left. `panicked` is the Go run-time
panic raised by an assignment through a nil pointer. -/
inductive Outcome (IR : Type) where
  | returned (s : State IR)
  | panicked (s : State IR)

/-- The state after the call, however it ended. -/
def Outcome.state {IR : Type} : Outcome IR → State IR
  | .returned s => s
  | .panicked s => s

/-- Sequencing of statements: a panic stops the run and keeps the state. -/
def Outcome.andThen {IR : Type} (o : Outcome IR) (f : State IR → Outcome IR) : Outcome IR :=
  match o with
  | .returned s => f s
  | .panicked s => .panicked s

/-- The pair of assignments `x.CommonParams.Project = project` and
`x.CommonParams.ObfuscatedProject = obfuscatedProject` through a non-nil
embedded pointer `a`: two writes to the record at `a`. -/
def assignProject (project obfuscatedProject : String) (a : Addr) (m : Memory) : Memory :=
  let m₁ := write m a { m a with Project := project }
  write m₁ a { m₁ a with ObfuscatedProject := obfuscatedProject }

/-- Lines 318-321: `if l.Params.ImageImportParams != nil { ... }`. With a nil embedded
pointer the first assignment panics and nothing is written. -/
def patchImageImport {IR : Type} (project obfuscatedProject : String) (s : State IR) :
    Outcome IR :=
  match s.logger.Params.ImageImportParams with
  | none => .returned s
  | some v =>
    match v.CommonParams with
    | none => .panicked s
    | some a => .returned { s with mem := assignProject project obfuscatedProject a s.mem }

/-- Lines 322-325: `if l.Params.ImageExportParams != nil { ... }`. With a nil embedded
pointer the first assignment panics and nothing is written. -/
def patchImageExport {IR : Type} (project obfuscatedProject : String) (s : State IR) :
    Outcome IR :=
  match s.logger.Params.ImageExportParams with
  | none => .returned s
  | some v =>
    match v.CommonParams with
    | none => .panicked s
    | some a => .returned { s with mem := assignProject project obfuscatedProject a s.mem }

/-- Lines 326-329: `if l.Params.InstanceImportParams != nil { ... }`. With a nil embedded
pointer the first assignment panics and nothing is written. -/
def patchInstanceImport {IR : Type} (project obfuscatedProject : String) (s : State IR) :
    Outcome IR :=
  match s.logger.Params.InstanceImportParams with
  | none => .returned s
  | some v =>
    match v.CommonParams with
    | none => .panicked s
    | some a => .returned { s with mem := assignProject project obfuscatedProject a s.mem }

/-- Lines 330-333: `if l.Params.MachineImageImportParams != nil { ... }`. With a nil embedded
pointer the first assignment panics and nothing is written. -/
def patchMachineImageImport {IR : Type} (project obfuscatedProject : String) (s : State IR) :
    Outcome IR :=
  match s.logger.Params.MachineImageImportParams with
  | none => .returned s
  | some v =>
    match v.CommonParams with
    | none => .panicked s
    | some a => .returned { s with mem := assignProject project obfuscatedProject a s.mem }

/-- Lines 334-337: `if l.Params.OnestepImageImportParams != nil { ... }`. With a nil embedded
pointer the first assignment panics and nothing is written. -/
def patchOnestepImageImport {IR : Type} (project obfuscatedProject : String) (s : State IR) :
    Outcome IR :=
  match s.logger.Params.OnestepImageImportParams with
  | none => .returned s
  | some v =>
    match v.CommonParams with
    | none => .panicked s
    | some a => .returned { s with mem := assignProject project obfuscatedProject a s.mem }

/-- `func (l *Logger) updateParams(projectPointer *string)`, lines 307-338.
`Hash` is the package-level hash function, passed in. The string behind
`projectPointer` is read once, at line 315, before any write. -/
def updateParams {IR : Type} (Hash : String → String) (s : State IR)
    (projectPointer : Option String) : Outcome IR :=
  match projectPointer with
  | none => .returned s
  | some project =>
    let obfuscatedProject := Hash project
    ((((patchImageImport project obfuscatedProject s).andThen
      (patchImageExport project obfuscatedProject)).andThen
      (patchInstanceImport project obfuscatedProject)).andThen
      (patchMachineImageImport project obfuscatedProject)).andThen
      (patchOnestepImageImport project obfuscatedProject)

/-! ## Predicates and views used to state the properties -/

/-- The embedded pointers of the eight variants, in the order of the fields of
`InputParams`; an absent variant contributes `none`, as does a populated
variant whose embedded pointer is nil. -/
def InputParams.pointers {IR : Type} (ps : InputParams IR) : List (Option Addr) :=
  [ ps.ImageImportParams.bind (fun v => v.CommonParams),
    ps.ImageExportParams.bind (fun v => v.CommonParams),
    ps.InstanceImportParams.bind (fun v => v.CommonParams),
    ps.MachineImageImportParams.bind (fun v => v.CommonParams),
    ps.WindowsUpgradeParams.bind (fun v => v.CommonParams),
    ps.OnestepImageImportParams.bind (fun v => v.CommonParams),
    ps.InstanceExportParams.bind (fun v => v.CommonParams),
    ps.MachineImageExportParams.bind (fun v => v.CommonParams) ]

/-- The common parameters seen through the embedded pointer of each of the
eight variants, in the order of the fields of `InputParams`. -/
def State.commons {IR : Type} (s : State IR) : List (Option CommonParams) :=
  s.logger.Params.pointers.map (fun x => x.map s.mem)

/-- The common-parameter records of the populated variants. -/
def State.commonParams {IR : Type} (s : State IR) : List CommonParams :=
  s.commons.reduceOption

/-- The addresses `updateParams` writes to: the non-nil embedded pointers of the
image-import, image-export, instance-import, machine-image-import and
one-step-image-import variants. -/
def Logger.writtenAddrs {IR : Type} (l : Logger IR) : List Addr :=
  [ l.Params.ImageImportParams.bind (fun v => v.CommonParams),
    l.Params.ImageExportParams.bind (fun v => v.CommonParams),
    l.Params.InstanceImportParams.bind (fun v => v.CommonParams),
    l.Params.MachineImageImportParams.bind (fun v => v.CommonParams),
    l.Params.OnestepImageImportParams.bind (fun v => v.CommonParams) ].reduceOption

/-- The addresses held by the windows-upgrade, instance-export and
machine-image-export variants, for which `updateParams` has no block. -/
def Logger.unwrittenAddrs {IR : Type} (l : Logger IR) : List Addr :=
  [ l.Params.WindowsUpgradeParams.bind (fun v => v.CommonParams),
    l.Params.InstanceExportParams.bind (fun v => v.CommonParams),
    l.Params.MachineImageExportParams.bind (fun v => v.CommonParams) ].reduceOption

/-- No variant of the union is populated. -/
def InputParams.noVariant {IR : Type} (ps : InputParams IR) : Prop :=
  ps.ImageImportParams = none ∧ ps.ImageExportParams = none ∧
  ps.InstanceImportParams = none ∧ ps.MachineImageImportParams = none ∧
  ps.WindowsUpgradeParams = none ∧ ps.OnestepImageImportParams = none ∧
  ps.InstanceExportParams = none ∧ ps.MachineImageExportParams = none

instance {IR : Type} [DecidableEq IR] (ps : InputParams IR) : Decidable ps.noVariant := by
  unfold InputParams.noVariant
  infer_instance

/-- Every populated variant among the five that `updateParams` writes to
(image import, image export, instance import, machine-image import, one-step
image import) has its embedded common-parameters pointer set. -/
def commonParamsPresent {IR : Type} (l : Logger IR) : Prop :=
  l.Params.ImageImportParams.all (fun v => v.CommonParams.isSome) = true ∧
  l.Params.ImageExportParams.all (fun v => v.CommonParams.isSome) = true ∧
  l.Params.InstanceImportParams.all (fun v => v.CommonParams.isSome) = true ∧
  l.Params.MachineImageImportParams.all (fun v => v.CommonParams.isSome) = true ∧
  l.Params.OnestepImageImportParams.all (fun v => v.CommonParams.isSome) = true

instance {IR : Type} (l : Logger IR) : Decidable (commonParamsPresent l) := by
  unfold commonParamsPresent
  infer_instance

/-- Every populated variant satisfies `ObfuscatedProject == Hash(Project)`. -/
def hashConsistent {IR : Type} (Hash : String → String) (s : State IR) : Prop :=
  ∀ c ∈ s.commonParams, c.ObfuscatedProject = Hash c.Project

instance {IR : Type} (Hash : String → String) (s : State IR) :
    Decidable (hashConsistent Hash s) := by
  unfold hashConsistent
  infer_instance

/-- Every populated variant with a non-empty `ObfuscatedProject` has a
non-empty `Project`. -/
def obfuscatedImpliesProject {IR : Type} (s : State IR) : Prop :=
  ∀ c ∈ s.commonParams, c.ObfuscatedProject ≠ "" → c.Project ≠ ""

instance {IR : Type} (s : State IR) : Decidable (obfuscatedImpliesProject s) := by
  unfold obfuscatedImpliesProject
  infer_instance

/-- What one call may do to the common parameters of one variant: leave the
reference as it is, or set both `Project` and `ObfuscatedProject` of a present
record to the pair `(project, obfuscatedProject)`. -/
def writtenTogether (project : Option String) (Hash : String → String) :
    Option CommonParams → Option CommonParams → Prop
  | none, none => True
  | some c, some c' =>
    c' = c ∨ ∃ p, project = some p ∧ c' = { c with Project := p, ObfuscatedProject := Hash p }
  | _, _ => False

/-- A common-parameters record with `Project` and `ObfuscatedProject` blanked:
two records with the same image differ at most in those two fields. -/
def CommonParams.eraseProject (c : CommonParams) : CommonParams :=
  { c with Project := "", ObfuscatedProject := "" }

/-- A record with both project fields set. -/
def CommonParams.setProject (project obfuscatedProject : String) (c : CommonParams) :
    CommonParams :=
  { c with Project := project, ObfuscatedProject := obfuscatedProject }

/-- The state with both project fields set in the record at every address of `w`. -/
def State.withProject {IR : Type} (project obfuscatedProject : String) (w : List Addr)
    (s : State IR) : State IR :=
  { s with mem := fun a =>
      if a ∈ w then (s.mem a).setProject project obfuscatedProject else s.mem a }

/-- One block of `updateParams` on the embedded pointer `x` of its variant:
`none` for an absent variant, `some none` for a populated variant with a nil
embedded pointer. -/
def patchAt {IR : Type} (project obfuscatedProject : String) (x : Option (Option Addr))
    (s : State IR) : Outcome IR :=
  match x with
  | none => .returned s
  | some none => .panicked s
  | some (some a) => .returned { s with mem := assignProject project obfuscatedProject a s.mem }

/-- A sequence of blocks, each reading the embedded pointer of its variant from
the logger. -/
def runBlocks {IR : Type} (project obfuscatedProject : String) :
    List (Logger IR → Option (Option Addr)) → State IR → Outcome IR
  | [], s => .returned s
  | r :: rs, s =>
    (patchAt project obfuscatedProject (r s.logger) s).andThen
      (runBlocks project obfuscatedProject rs)

/-- The five blocks of `updateParams`, in order. -/
def blockPointers {IR : Type} : List (Logger IR → Option (Option Addr)) :=
  [ fun l => l.Params.ImageImportParams.map (fun v => v.CommonParams),
    fun l => l.Params.ImageExportParams.map (fun v => v.CommonParams),
    fun l => l.Params.InstanceImportParams.map (fun v => v.CommonParams),
    fun l => l.Params.MachineImageImportParams.map (fun v => v.CommonParams),
    fun l => l.Params.OnestepImageImportParams.map (fun v => v.CommonParams) ]

/-! ## JSON encoding

What `encoding/json` produces for the records above, read off their `json`
struct tags: a field is written under the key of its tag; a field whose tag
carries `omitempty` is skipped when its value is empty (false, 0, a nil
pointer, an empty string or slice); the fields of an embedded struct pointer
are promoted into the enclosing object and skipped when the pointer is nil. -/

/-- A JSON value; an object keeps its members in the order they are written. -/
inductive JSON where
  | null
  | bool (b : Bool)
  | number (n : Int)
  | string (s : String)
  | array (xs : List JSON)
  | object (members : List (String × JSON))

/-- The members of an object, in order; empty for any other value. -/
def JSON.members : JSON → List (String × JSON)
  | .object members => members
  | _ => []

/-- One struct field as the encoder sees it: the key from its `json` tag,
whether the tag carries `omitempty`, whether the Go value is empty, and the
encoding of the value. -/
structure Field where
  name : String
  omitempty : Bool
  isEmptyValue : Bool
  value : JSON

/-- A `string` field: empty when its length is zero. -/
def Field.ofString (name : String) (omitempty : Bool) (s : String) : Field :=
  { name := name, omitempty := omitempty, isEmptyValue := decide (s = ""), value := .string s }

/-- A `bool` field: empty when false. -/
def Field.ofBool (name : String) (omitempty : Bool) (b : Bool) : Field :=
  { name := name, omitempty := omitempty, isEmptyValue := !b, value := .bool b }

/-- An `int64` field: empty when zero. -/
def Field.ofInt64 (name : String) (omitempty : Bool) (n : Int) : Field :=
  { name := name, omitempty := omitempty, isEmptyValue := decide (n = 0), value := .number n }

/-- A `[]int64` field: empty when it has no element. -/
def Field.ofInt64s (name : String) (omitempty : Bool) (ns : List Int) : Field :=
  { name := name, omitempty := omitempty, isEmptyValue := ns.isEmpty,
    value := .array (ns.map JSON.number) }

/-- A `[]string` field: empty when it has no element. -/
def Field.ofStrings (name : String) (omitempty : Bool) (ss : List String) : Field :=
  { name := name, omitempty := omitempty, isEmptyValue := ss.isEmpty,
    value := .array (ss.map JSON.string) }

/-- A pointer field, given the encoding of what it points to: empty when nil,
and a nil pointer that is written is written as `null`. -/
def Field.ofPointer (name : String) (omitempty : Bool) (v : Option JSON) : Field :=
  { name := name, omitempty := omitempty, isEmptyValue := v.isNone, value := v.getD .null }

/-- The encoder's test on a field: it is written unless its tag carries
`omitempty` and its value is empty. -/
def Field.emitted (f : Field) : Bool := !(f.omitempty && f.isEmptyValue)

/-- The object written for a struct with the given fields: each field that
passes the encoder's test, in order, under the key of its tag. The encoder is
Go's `encoding/json`, to which the source leaves the serialization; what it
does with a record is fixed by the `json` struct tags declared in the file. -/
def marshalStruct (fs : List Field) : JSON :=
  .object ((fs.filter Field.emitted).map (fun f => (f.name, f.value)))

/-- The fields of `CommonParams` with their `json` tags, in declaration order. -/
def CommonParams.fields (x : CommonParams) :
    List Field :=
  [ Field.ofString "client_id" true x.ClientID,
    Field.ofString "client_version" true x.ClientVersion,
    Field.ofString "network" true x.Network,
    Field.ofString "subnet" true x.Subnet,
    Field.ofString "zone" true x.Zone,
    Field.ofString "timeout" true x.Timeout,
    Field.ofString "project" true x.Project,
    Field.ofString "obfuscated_project" true x.ObfuscatedProject,
    Field.ofString "labels" true x.Labels,
    Field.ofString "scratch_bucket_gcs_path" true x.ScratchBucketGcsPath,
    Field.ofString "oauth" true x.Oauth,
    Field.ofString "compute_endpoint_override" true x.ComputeEndpointOverride,
    Field.ofBool "disable_gcs_logging" false x.DisableGcsLogging,
    Field.ofBool "disable_cloud_logging" false x.DisableCloudLogging,
    Field.ofBool "disable_stdout_logging" false x.DisableStdoutLogging ]

/-- An embedded `*CommonParams`, given the record it refers to: the encoder skips
the promoted fields when the pointer is nil. -/
def embeddedCommonParams : Option CommonParams → List Field
  | none => []
  | some c => c.fields

/-- The fields of `ImageImportParams` with their `json` tags, in declaration order;
the fields of the embedded `*CommonParams` are promoted and come first. -/
def ImageImportParams.fields {IR : Type} (marshalIR : IR → List (String × JSON)) (mem : Memory) (x : ImageImportParams IR) :
    List Field :=
  embeddedCommonParams (x.CommonParams.map mem) ++
  [ Field.ofString "image_name" true x.ImageName,
    Field.ofBool "data_disk" false x.DataDisk,
    Field.ofString "os" true x.OS,
    Field.ofString "source_file" true x.SourceFile,
    Field.ofString "source_image" true x.SourceImage,
    Field.ofBool "no_guest_environment" false x.NoGuestEnvironment,
    Field.ofString "family" true x.Family,
    Field.ofString "description" true x.Description,
    Field.ofBool "no_external_ip" false x.NoExternalIP,
    Field.ofBool "has_kms_key" false x.HasKmsKey,
    Field.ofBool "has_kms_keyring" false x.HasKmsKeyring,
    Field.ofBool "has_kms_location" false x.HasKmsLocation,
    Field.ofBool "has_kms_project" false x.HasKmsProject,
    Field.ofString "storage_location" true x.StorageLocation,
    Field.ofPointer "inspection_results" true
      (x.InspectionResults.map (fun r => JSON.object (marshalIR r))),
    Field.ofString "compute_service_account" true x.ComputeServiceAccount ]

/-- The encoding of `ImageImportParams`. -/
def ImageImportParams.toJSON {IR : Type} (marshalIR : IR → List (String × JSON)) (mem : Memory) (x : ImageImportParams IR) : JSON :=
  marshalStruct (x.fields marshalIR mem)

/-- The fields of `ImageExportParams` with their `json` tags, in declaration order;
the fields of the embedded `*CommonParams` are promoted and come first. -/
def ImageExportParams.fields (mem : Memory) (x : ImageExportParams) :
    List Field :=
  embeddedCommonParams (x.CommonParams.map mem) ++
  [ Field.ofString "destination_uri" true x.DestinationURI,
    Field.ofString "source_image" true x.SourceImage,
    Field.ofString "format" true x.Format,
    Field.ofString "compute_service_account" true x.ComputeServiceAccount,
    Field.ofString "source_disk_snapshot" true x.SourceDiskSnapshot ]

/-- The encoding of `ImageExportParams`. -/
def ImageExportParams.toJSON (mem : Memory) (x : ImageExportParams) : JSON :=
  marshalStruct (x.fields mem)

/-- The fields of `OnestepImageImportParams` with their `json` tags, in declaration order;
the fields of the embedded `*CommonParams` are promoted and come first. -/
def OnestepImageImportParams.fields (mem : Memory) (x : OnestepImageImportParams) :
    List Field :=
  embeddedCommonParams (x.CommonParams.map mem) ++
  [ Field.ofString "image_name" true x.ImageName,
    Field.ofString "os" true x.OS,
    Field.ofBool "no_guest_environment" false x.NoGuestEnvironment,
    Field.ofString "family" true x.Family,
    Field.ofString "description" true x.Description,
    Field.ofBool "no_external_ip" false x.NoExternalIP,
    Field.ofBool "has_kms_key" false x.HasKmsKey,
    Field.ofBool "has_kms_keyring" false x.HasKmsKeyring,
    Field.ofBool "has_kms_location" false x.HasKmsLocation,
    Field.ofBool "has_kms_project" false x.HasKmsProject,
    Field.ofString "storage_location" true x.StorageLocation,
    Field.ofString "compute_service_account" true x.ComputeServiceAccount,
    Field.ofString "aws_ami_id" true x.AWSAMIID,
    Field.ofString "aws_ami_export_location" true x.AWSAMIExportLocation,
    Field.ofString "aws_source_ami_file_path" true x.AWSSourceAMIFilePath ]

/-- The encoding of `OnestepImageImportParams`. -/
def OnestepImageImportParams.toJSON (mem : Memory) (x : OnestepImageImportParams) : JSON :=
  marshalStruct (x.fields mem)

/-- The fields of `InstanceImportParams` with their `json` tags, in declaration order;
the fields of the embedded `*CommonParams` are promoted and come first. -/
def InstanceImportParams.fields (mem : Memory) (x : InstanceImportParams) :
    List Field :=
  embeddedCommonParams (x.CommonParams.map mem) ++
  [ Field.ofString "instance_name" true x.InstanceName,
    Field.ofString "ovf_gcs_path" true x.OvfGcsPath,
    Field.ofBool "can_ip_forward" false x.CanIPForward,
    Field.ofBool "deletion_protection" false x.DeletionProtection,
    Field.ofString "machine_type" true x.MachineType,
    Field.ofString "network_interface" true x.NetworkInterface,
    Field.ofString "network_tier" true x.NetworkTier,
    Field.ofString "private_network_ip" true x.PrivateNetworkIP,
    Field.ofBool "no_external_ip" true x.NoExternalIP,
    Field.ofBool "no_restart_on_failure" false x.NoRestartOnFailure,
    Field.ofString "os" true x.OS,
    Field.ofBool "shielded_integrity_monitoring" false x.ShieldedIntegrityMonitoring,
    Field.ofBool "shielded_secure_boot" false x.ShieldedSecureBoot,
    Field.ofBool "shielded_vtpm" false x.ShieldedVtpm,
    Field.ofString "tags" true x.Tags,
    Field.ofBool "has_boot_disk_kms_key" false x.HasBootDiskKmsKey,
    Field.ofBool "has_boot_disk_kms_keyring" false x.HasBootDiskKmsKeyring,
    Field.ofBool "has_boot_disk_kms_location" false x.HasBootDiskKmsLocation,
    Field.ofBool "has_boot_disk_kms_project" false x.HasBootDiskKmsProject,
    Field.ofBool "no_guest_environment" false x.NoGuestEnvironment,
    Field.ofString "node_affinity_label" true x.NodeAffinityLabel,
    Field.ofString "compute_service_account" true x.ComputeServiceAccount ]

/-- The encoding of `InstanceImportParams`. -/
def InstanceImportParams.toJSON (mem : Memory) (x : InstanceImportParams) : JSON :=
  marshalStruct (x.fields mem)

/-- The fields of `MachineImageImportParams` with their `json` tags, in declaration order;
the fields of the embedded `*CommonParams` are promoted and come first. -/
def MachineImageImportParams.fields (mem : Memory) (x : MachineImageImportParams) :
    List Field :=
  embeddedCommonParams (x.CommonParams.map mem) ++
  [ Field.ofString "machine_image_name" true x.MachineImageName,
    Field.ofString "ovf_gcs_path" true x.OvfGcsPath,
    Field.ofBool "can_ip_forward" false x.CanIPForward,
    Field.ofBool "deletion_protection" false x.DeletionProtection,
    Field.ofString "machine_type" true x.MachineType,
    Field.ofString "network_interface" true x.NetworkInterface,
    Field.ofString "network_tier" true x.NetworkTier,
    Field.ofString "private_network_ip" true x.PrivateNetworkIP,
    Field.ofBool "no_external_ip" true x.NoExternalIP,
    Field.ofBool "no_restart_on_failure" false x.NoRestartOnFailure,
    Field.ofString "os" true x.OS,
    Field.ofBool "shielded_integrity_monitoring" false x.ShieldedIntegrityMonitoring,
    Field.ofBool "shielded_secure_boot" false x.ShieldedSecureBoot,
    Field.ofBool "shielded_vtpm" false x.ShieldedVtpm,
    Field.ofString "tags" true x.Tags,
    Field.ofBool "has_boot_disk_kms_key" false x.HasBootDiskKmsKey,
    Field.ofBool "has_boot_disk_kms_keyring" false x.HasBootDiskKmsKeyring,
    Field.ofBool "has_boot_disk_kms_location" false x.HasBootDiskKmsLocation,
    Field.ofBool "has_boot_disk_kms_project" false x.HasBootDiskKmsProject,
    Field.ofBool "no_guest_environment" false x.NoGuestEnvironment,
    Field.ofString "node_affinity_label" true x.NodeAffinityLabel,
    Field.ofString "hostname" true x.Hostname,
    Field.ofString "machine_image_storage_location" true x.MachineImageStorageLocation,
    Field.ofString "compute_service_account" true x.ComputeServiceAccount ]

/-- The encoding of `MachineImageImportParams`. -/
def MachineImageImportParams.toJSON (mem : Memory) (x : MachineImageImportParams) : JSON :=
  marshalStruct (x.fields mem)

/-- The fields of `WindowsUpgradeParams` with their `json` tags, in declaration order;
the fields of the embedded `*CommonParams` are promoted and come first. -/
def WindowsUpgradeParams.fields (mem : Memory) (x : WindowsUpgradeParams) :
    List Field :=
  embeddedCommonParams (x.CommonParams.map mem) ++
  [ Field.ofString "source_os" true x.SourceOS,
    Field.ofString "target_os" true x.TargetOS,
    Field.ofString "instance" true x.Instance,
    Field.ofBool "create_machine_backup" false x.CreateMachineBackup,
    Field.ofBool "auto_rollback" false x.AutoRollback,
    Field.ofBool "use_staging_install_media" false x.UseStagingInstallMedia ]

/-- The encoding of `WindowsUpgradeParams`. -/
def WindowsUpgradeParams.toJSON (mem : Memory) (x : WindowsUpgradeParams) : JSON :=
  marshalStruct (x.fields mem)

/-- The fields of `InstanceExportParams` with their `json` tags, in declaration order;
the fields of the embedded `*CommonParams` are promoted and come first. -/
def InstanceExportParams.fields (mem : Memory) (x : InstanceExportParams) :
    List Field :=
  embeddedCommonParams (x.CommonParams.map mem) ++
  [ Field.ofString "destination_uri" true x.DestinationURI,
    Field.ofString "instance_name" true x.InstanceName,
    Field.ofString "ovf_format" true x.OvfFormat,
    Field.ofString "disk_export_format" true x.DiskExportFormat,
    Field.ofBool "no_external_ip" true x.NoExternalIP,
    Field.ofString "os" true x.OS ]

/-- The encoding of `InstanceExportParams`. -/
def InstanceExportParams.toJSON (mem : Memory) (x : InstanceExportParams) : JSON :=
  marshalStruct (x.fields mem)

/-- The fields of `MachineImageExportParams` with their `json` tags, in declaration order;
the fields of the embedded `*CommonParams` are promoted and come first. -/
def MachineImageExportParams.fields (mem : Memory) (x : MachineImageExportParams) :
    List Field :=
  embeddedCommonParams (x.CommonParams.map mem) ++
  [ Field.ofString "destination_uri" true x.DestinationURI,
    Field.ofString "machine_image_name" true x.MachineImageName,
    Field.ofString "ovf_format" true x.OvfFormat,
    Field.ofString "disk_export_format" true x.DiskExportFormat,
    Field.ofBool "no_external_ip" true x.NoExternalIP,
    Field.ofString "os" true x.OS ]

/-- The encoding of `MachineImageExportParams`. -/
def MachineImageExportParams.toJSON (mem : Memory) (x : MachineImageExportParams) : JSON :=
  marshalStruct (x.fields mem)

/-- The fields of `InputParams` with their `json` tags, in declaration order. -/
def InputParams.fields {IR : Type} (marshalIR : IR → List (String × JSON)) (mem : Memory) (x : InputParams IR) :
    List Field :=
  [ Field.ofPointer "image_import_input_params" true
      (x.ImageImportParams.map (ImageImportParams.toJSON marshalIR mem)),
    Field.ofPointer "image_export_input_params" true
      (x.ImageExportParams.map (ImageExportParams.toJSON mem)),
    Field.ofPointer "instance_import_input_params" true
      (x.InstanceImportParams.map (InstanceImportParams.toJSON mem)),
    Field.ofPointer "machine_image_import_input_params" true
      (x.MachineImageImportParams.map (MachineImageImportParams.toJSON mem)),
    Field.ofPointer "windows_upgrade_input_params" true
      (x.WindowsUpgradeParams.map (WindowsUpgradeParams.toJSON mem)),
    Field.ofPointer "onestep_image_import_input_params" true
      (x.OnestepImageImportParams.map (OnestepImageImportParams.toJSON mem)),
    Field.ofPointer "instance_export_input_params" true
      (x.InstanceExportParams.map (InstanceExportParams.toJSON mem)),
    Field.ofPointer "machine_image_export_input_params" true
      (x.MachineImageExportParams.map (MachineImageExportParams.toJSON mem)) ]

/-- The encoding of `InputParams`. -/
def InputParams.toJSON {IR : Type} (marshalIR : IR → List (String × JSON)) (mem : Memory) (x : InputParams IR) : JSON :=
  marshalStruct (x.fields marshalIR mem)

/-- The fields of `OutputInfo` with their `json` tags, in declaration order. -/
def OutputInfo.fields (x : OutputInfo) :
    List Field :=
  [ Field.ofInt64s "sources_size_gb" true x.SourcesSizeGb,
    Field.ofInt64s "targets_size_gb" true x.TargetsSizeGb,
    Field.ofString "failure_message" true x.FailureMessage,
    Field.ofString "failure_message_without_privacy_info" true x.FailureMessageWithoutPrivacyInfo,
    Field.ofString "import_file_format" true x.ImportFileFormat,
    Field.ofStrings "serial_outputs" true x.SerialOutputs,
    Field.ofString "inflation_type" true x.InflationType,
    Field.ofInt64s "inflation_time_ms" true x.InflationTime,
    Field.ofInt64s "shadow_inflation_time_ms" true x.ShadowInflationTime,
    Field.ofString "shadow_disk_match_result" true x.ShadowDiskMatchResult,
    Field.ofBool "is_uefi_compatible_image" true x.IsUEFICompatibleImage,
    Field.ofBool "is_uefi_detected" true x.IsUEFIDetected ]

/-- The encoding of `OutputInfo`. -/
def OutputInfo.toJSON (x : OutputInfo) : JSON :=
  marshalStruct (x.fields)

/-- The fields of `ComputeImageToolsLogExtension` with their `json` tags, in declaration order. -/
def ComputeImageToolsLogExtension.fields {IR : Type} (marshalIR : IR → List (String × JSON)) (mem : Memory) (x : ComputeImageToolsLogExtension IR) :
    List Field :=
  [ Field.ofString "id" false x.ID,
    Field.ofString "cloud_build_id" false x.CloudBuildID,
    Field.ofString "tool_action" false x.ToolAction,
    Field.ofString "status" false x.Status,
    Field.ofInt64 "elapsed_time_ms" false x.ElapsedTimeMs,
    Field.ofInt64 "event_time_ms" false x.EventTimeMs,
    Field.ofPointer "input_params" true
      (x.InputParams.map (InputParams.toJSON marshalIR mem)),
    Field.ofPointer "output_info" true
      (x.OutputInfo.map (OutputInfo.toJSON)) ]

/-- The encoding of `ComputeImageToolsLogExtension`. -/
def ComputeImageToolsLogExtension.toJSON {IR : Type} (marshalIR : IR → List (String × JSON)) (mem : Memory) (x : ComputeImageToolsLogExtension IR) : JSON :=
  marshalStruct (x.fields marshalIR mem)

/-- A stand-in for `Hash` on concrete inputs. Like a fixed-length digest it
never returns the empty string. -/
def sampleHash (s : String) : String := "sha256:" ++ s

/-- The zero value of `CommonParams`. -/
def CommonParams.zero : CommonParams :=
  { ClientID := "", ClientVersion := "", Network := "", Subnet := "", Zone := "",
    Timeout := "", Project := "", ObfuscatedProject := "", Labels := "",
    ScratchBucketGcsPath := "", Oauth := "", ComputeEndpointOverride := "",
    DisableGcsLogging := false, DisableCloudLogging := false,
    DisableStdoutLogging := false }

/-- A memory in which every record is the zero value of `CommonParams`. -/
def zeroMemory : Memory := fun _ => CommonParams.zero

/-- The zero value of `InputParams`: no variant populated. -/
def InputParams.zero : InputParams Unit :=
  { ImageImportParams := none, ImageExportParams := none, InstanceImportParams := none,
    MachineImageImportParams := none, WindowsUpgradeParams := none,
    OnestepImageImportParams := none, InstanceExportParams := none,
    MachineImageExportParams := none }

/-- An `ImageImportParams` with `ImageName = "disk1"` and the given embedded pointer. -/
def imageImportDisk1 (c : Option Addr) : ImageImportParams Unit :=
  { CommonParams := c, ImageName := "disk1", DataDisk := false, OS := "", SourceFile := "",
    SourceImage := "", NoGuestEnvironment := false, Family := "", Description := "",
    NoExternalIP := false, HasKmsKey := false, HasKmsKeyring := false,
    HasKmsLocation := false, HasKmsProject := false, StorageLocation := "",
    InspectionResults := none, ComputeServiceAccount := "" }

/-- A `WindowsUpgradeParams` for instance `"vm1"` with the given embedded pointer. -/
def windowsUpgradeVm1 (c : Option Addr) : WindowsUpgradeParams :=
  { CommonParams := c, SourceOS := "", TargetOS := "", Instance := "vm1",
    CreateMachineBackup := false, AutoRollback := false, UseStagingInstallMedia := false }

/-- An `InstanceExportParams` for instance `"vm1"` with the given embedded pointer. -/
def instanceExportVm1 (c : Option Addr) : InstanceExportParams :=
  { CommonParams := c, DestinationURI := "", InstanceName := "vm1", OvfFormat := "",
    DiskExportFormat := "", NoExternalIP := false, OS := "" }

/-- A `MachineImageExportParams` for machine image `"mi1"` with the given embedded pointer. -/
def machineImageExportMi1 (c : Option Addr) : MachineImageExportParams :=
  { CommonParams := c, DestinationURI := "", MachineImageName := "mi1", OvfFormat := "",
    DiskExportFormat := "", NoExternalIP := false, OS := "" }

/-- A logger with no variant populated. -/
def emptyState : State Unit :=
  { logger := { Params := InputParams.zero }, mem := zeroMemory }

/-- A logger whose only populated variant is image import, its common
parameters at address 0, project not yet known. -/
def imageImportState : State Unit :=
  { logger := { Params := { InputParams.zero with
      ImageImportParams := some (imageImportDisk1 (some 0)) } },
    mem := zeroMemory }

/-- The state of `imageImportState` once the pair for `"proj-42"` is written at
address 0. -/
def imageImportStatePatched : State Unit :=
  { imageImportState with
    mem := assignProject "proj-42" "sha256:proj-42" 0 imageImportState.mem }

/-- The state of `imageImportState` once the pair for the empty project string
is written at address 0. -/
def imageImportStateEmptyProject : State Unit :=
  { imageImportState with mem := assignProject "" "sha256:" 0 imageImportState.mem }

/-- A logger whose image-import variant is populated with a nil embedded
`*CommonParams`. -/
def nilCommonState : State Unit :=
  { logger := { Params := { InputParams.zero with
      ImageImportParams := some (imageImportDisk1 none) } },
    mem := zeroMemory }

/-- A logger whose only populated variant is windows upgrade. -/
def windowsUpgradeState : State Unit :=
  { logger := { Params := { InputParams.zero with
      WindowsUpgradeParams := some (windowsUpgradeVm1 (some 0)) } },
    mem := zeroMemory }

/-- A logger whose only populated variant is instance export. -/
def instanceExportState : State Unit :=
  { logger := { Params := { InputParams.zero with
      InstanceExportParams := some (instanceExportVm1 (some 0)) } },
    mem := zeroMemory }

/-- A logger whose only populated variant is machine-image export. -/
def machineImageExportState : State Unit :=
  { logger := { Params := { InputParams.zero with
      MachineImageExportParams := some (machineImageExportMi1 (some 0)) } },
    mem := zeroMemory }

/-- A logger with the image-import and windows-upgrade variants both populated,
their embedded pointers referring to one `CommonParams` record, at address 0. -/
def sharedState : State Unit :=
  { logger := { Params := { InputParams.zero with
      ImageImportParams := some (imageImportDisk1 (some 0))
      WindowsUpgradeParams := some (windowsUpgradeVm1 (some 0)) } },
    mem := zeroMemory }

/-- The state of `sharedState` once the pair for `"proj-42"` is written at
address 0. -/
def sharedStatePatched : State Unit :=
  { sharedState with mem := assignProject "proj-42" "sha256:proj-42" 0 sharedState.mem }

/-- A logger with the image-import and windows-upgrade variants both populated,
each with a `CommonParams` record of its own, at addresses 0 and 1. -/
def separateState : State Unit :=
  { logger := { Params := { InputParams.zero with
      ImageImportParams := some (imageImportDisk1 (some 0))
      WindowsUpgradeParams := some (windowsUpgradeVm1 (some 1)) } },
    mem := zeroMemory }

/-- The state of `separateState` once the pair for `"proj-42"` is written at
address 0. -/
def separateStatePatched : State Unit :=
  { separateState with mem := assignProject "proj-42" "sha256:proj-42" 0 separateState.mem }

/-- The zero value of `ComputeImageToolsLogExtension`: nothing set. -/
def ComputeImageToolsLogExtension.zero : ComputeImageToolsLogExtension Unit :=
  { ID := "", CloudBuildID := "", ToolAction := "", Status := "", ElapsedTimeMs := 0,
    EventTimeMs := 0, InputParams := none, OutputInfo := none }

theorem setProject_setProject (p o : String) (c : CommonParams) :
    (c.setProject p o).setProject p o = c.setProject p o := rfl

theorem assignProject_apply (p o : String) (a : Addr) (m : Memory) (b : Addr) :
    assignProject p o a m b = if b = a then (m b).setProject p o else m b := by
  by_cases h : b = a
  · subst h
    simp [assignProject, write, CommonParams.setProject]
  · simp [assignProject, write, h]

theorem andThen_assoc {IR : Type} (o : Outcome IR) (f g : State IR → Outcome IR) :
    (o.andThen f).andThen g = o.andThen (fun s => (f s).andThen g) := by
  cases o <;> rfl

theorem patchImageImport_eq {IR : Type} (p o : String) (s : State IR) :
    patchImageImport p o s
      = patchAt p o (s.logger.Params.ImageImportParams.map (fun v => v.CommonParams)) s := by
  unfold patchImageImport patchAt
  cases s.logger.Params.ImageImportParams with
  | none => rfl
  | some v => cases h : v.CommonParams <;> simp [h]

theorem patchImageExport_eq {IR : Type} (p o : String) (s : State IR) :
    patchImageExport p o s
      = patchAt p o (s.logger.Params.ImageExportParams.map (fun v => v.CommonParams)) s := by
  unfold patchImageExport patchAt
  cases s.logger.Params.ImageExportParams with
  | none => rfl
  | some v => cases h : v.CommonParams <;> simp [h]

theorem patchInstanceImport_eq {IR : Type} (p o : String) (s : State IR) :
    patchInstanceImport p o s
      = patchAt p o (s.logger.Params.InstanceImportParams.map (fun v => v.CommonParams)) s := by
  unfold patchInstanceImport patchAt
  cases s.logger.Params.InstanceImportParams with
  | none => rfl
  | some v => cases h : v.CommonParams <;> simp [h]

theorem patchMachineImageImport_eq {IR : Type} (p o : String) (s : State IR) :
    patchMachineImageImport p o s
      = patchAt p o
          (s.logger.Params.MachineImageImportParams.map (fun v => v.CommonParams)) s := by
  unfold patchMachineImageImport patchAt
  cases s.logger.Params.MachineImageImportParams with
  | none => rfl
  | some v => cases h : v.CommonParams <;> simp [h]

theorem patchOnestepImageImport_eq {IR : Type} (p o : String) (s : State IR) :
    patchOnestepImageImport p o s
      = patchAt p o
          (s.logger.Params.OnestepImageImportParams.map (fun v => v.CommonParams)) s := by
  unfold patchOnestepImageImport patchAt
  cases s.logger.Params.OnestepImageImportParams with
  | none => rfl
  | some v => cases h : v.CommonParams <;> simp [h]

/-- With a project identifier, `updateParams` is its five blocks run in order. -/
theorem updateParams_eq_runBlocks {IR : Type} (Hash : String → String) (s : State IR)
    (p : String) : updateParams Hash s (some p) = runBlocks p (Hash p) blockPointers s := by
  simp only [updateParams, runBlocks, blockPointers, andThen_assoc]
  rw [patchImageImport_eq]
  congr 1
  funext s₁
  rw [patchImageExport_eq]
  congr 1
  funext s₂
  rw [patchInstanceImport_eq]
  congr 1
  funext s₃
  rw [patchMachineImageImport_eq]
  congr 1
  funext s₄
  rw [patchOnestepImageImport_eq]
  cases patchAt p (Hash p)
    (s₄.logger.Params.OnestepImageImportParams.map (fun v => v.CommonParams)) s₄ <;> rfl

/-- No block changes the logger. -/
theorem runBlocks_logger {IR : Type} (p o : String)
    (rs : List (Logger IR → Option (Option Addr))) (s : State IR) :
    (runBlocks p o rs s).state.logger = s.logger := by
  induction rs generalizing s with
  | nil => rfl
  | cons r rs ih =>
    simp only [runBlocks, patchAt]
    rcases r s.logger with _ | _ | a
    · exact ih s
    · rfl
    · exact ih _

/-- Every record is left as it was or has both project fields set, however the
run ended. -/
theorem runBlocks_mem {IR : Type} (p o : String)
    (rs : List (Logger IR → Option (Option Addr))) (s : State IR) (a : Addr) :
    (runBlocks p o rs s).state.mem a = s.mem a ∨
      (runBlocks p o rs s).state.mem a = (s.mem a).setProject p o := by
  induction rs generalizing s with
  | nil => exact Or.inl rfl
  | cons r rs ih =>
    simp only [runBlocks, patchAt]
    rcases r s.logger with _ | _ | b
    · exact ih s
    · exact Or.inl rfl
    · have h := ih { s with mem := assignProject p o b s.mem }
      simp only [Outcome.andThen, assignProject_apply] at h ⊢
      by_cases hab : a = b
      · simp only [hab, if_true, setProject_setProject, or_self] at h ⊢
        exact Or.inr h
      · simpa only [hab, if_false] using h

/-- A run of blocks returns exactly when no block meets a nil embedded pointer,
and then it has set both project fields at the addresses the blocks hold. -/
theorem runBlocks_returned_iff {IR : Type} (p o : String)
    (rs : List (Logger IR → Option (Option Addr))) (s s' : State IR) :
    runBlocks p o rs s = .returned s' ↔
      (∀ r ∈ rs, r s.logger ≠ some none) ∧
      s' = s.withProject p o (rs.filterMap (fun r => (r s.logger).join)) := by
  induction rs generalizing s with
  | nil =>
    simp only [runBlocks, Outcome.returned.injEq, List.not_mem_nil, false_implies,
      implies_true, true_and, List.filterMap_nil, State.withProject, if_false]
    exact eq_comm
  | cons r rs ih =>
    simp only [runBlocks, patchAt, List.forall_mem_cons]
    rcases hr : r s.logger with _ | _ | b
    · have hj : (fun r : Logger IR → Option (Option Addr) => (r s.logger).join) r = none := by
        simp only [hr]; rfl
      have hc : List.filterMap (fun r : Logger IR → Option (Option Addr) => (r s.logger).join)
          (r :: rs) = List.filterMap (fun r => (r s.logger).join) rs :=
        List.filterMap_cons_none hj
      rw [hc]
      simp only [Outcome.andThen, ne_eq, reduceCtorEq, not_false_eq_true, true_and]
      exact ih s
    · simp [Outcome.andThen]
    · have hj : (fun r : Logger IR → Option (Option Addr) => (r s.logger).join) r = some b := by
        simp only [hr]; rfl
      have hc : List.filterMap (fun r : Logger IR → Option (Option Addr) => (r s.logger).join)
          (r :: rs) = b :: List.filterMap (fun r => (r s.logger).join) rs :=
        List.filterMap_cons_some hj
      rw [hc]
      simp only [Outcome.andThen, ne_eq, Option.some.injEq, reduceCtorEq, not_false_eq_true,
        true_and]
      rw [ih]
      have hs : State.withProject p o
          (List.filterMap (fun r => (r s.logger).join) rs)
          { s with mem := assignProject p o b s.mem }
          = State.withProject p o (b :: List.filterMap (fun r => (r s.logger).join) rs) s := by
        simp only [State.withProject, State.mk.injEq, true_and]
        funext a
        simp only [assignProject_apply, List.mem_cons]
        by_cases hab : a = b <;>
          by_cases haw : a ∈ List.filterMap (fun r => (r s.logger).join) rs <;>
          simp [hab, haw, setProject_setProject]
      simp only [hs]

theorem join_map {α β : Type} (x : Option α) (f : α → Option β) :
    (x.map f).join = x.bind f := by
  cases x <;> rfl

theorem all_isSome_iff {α β : Type} (x : Option α) (f : α → Option β) :
    x.all (fun v => (f v).isSome) = true ↔ x.map f ≠ some none := by
  cases x with
  | none => simp
  | some v => cases h : f v <;> simp [h]

theorem blockPointers_addrs {IR : Type} (l : Logger IR) :
    blockPointers.filterMap (fun r => (r l).join) = l.writtenAddrs := by
  simp only [blockPointers, Logger.writtenAddrs, List.reduceOption, ← join_map]
  rfl

theorem blockPointers_present {IR : Type} (l : Logger IR) :
    (∀ r ∈ blockPointers, r l ≠ some none) ↔ commonParamsPresent l := by
  simp only [blockPointers, commonParamsPresent, List.forall_mem_cons, List.not_mem_nil,
    false_implies, implies_true, and_true, all_isSome_iff]

/-- A call with a project identifier returns exactly when every populated
written variant has its embedded pointer set, and then it has set both project
fields of the records at the written addresses. -/
theorem updateParams_returned_iff {IR : Type} (Hash : String → String) (s s' : State IR)
    (p : String) :
    updateParams Hash s (some p) = .returned s' ↔
      commonParamsPresent s.logger ∧ s' = s.withProject p (Hash p) s.logger.writtenAddrs := by
  rw [updateParams_eq_runBlocks, runBlocks_returned_iff, blockPointers_present,
    blockPointers_addrs]

/-- With a project identifier and a nil embedded pointer in a populated written
variant, the call panics. -/
theorem updateParams_of_not_present {IR : Type} (Hash : String → String) (s : State IR)
    (p : String) (h : ¬ commonParamsPresent s.logger) :
    ∃ s', updateParams Hash s (some p) = .panicked s' := by
  cases hu : updateParams Hash s (some p) with
  | returned s' => exact absurd ((updateParams_returned_iff Hash s s' p).mp hu).1 h
  | panicked s' => exact ⟨s', rfl⟩

/-- The logger is the same after a call, however it ended. -/
theorem updateParams_logger {IR : Type} (Hash : String → String) (s : State IR)
    (p : Option String) : (updateParams Hash s p).state.logger = s.logger := by
  cases p with
  | none => rfl
  | some p =>
    rw [updateParams_eq_runBlocks]
    exact runBlocks_logger p (Hash p) blockPointers s

/-- Every record is left as it was or has both project fields set to
`(p, Hash p)`, however the call ended. -/
theorem updateParams_mem {IR : Type} (Hash : String → String) (s : State IR)
    (p : Option String) (a : Addr) :
    writtenTogether p Hash (some (s.mem a)) (some ((updateParams Hash s p).state.mem a)) := by
  cases p with
  | none => exact Or.inl rfl
  | some p =>
    rw [updateParams_eq_runBlocks]
    rcases runBlocks_mem p (Hash p) blockPointers s a with h | h
    · exact Or.inl h
    · exact Or.inr ⟨p, rfl, h⟩

theorem writtenTogether_map (p : Option String) (Hash : String → String) (m m' : Memory)
    (h : ∀ a, writtenTogether p Hash (some (m a)) (some (m' a))) (xs : List (Option Addr)) :
    List.Forall₂ (writtenTogether p Hash) (xs.map (fun x => x.map m))
      (xs.map (fun x => x.map m')) := by
  induction xs with
  | nil => exact List.Forall₂.nil
  | cons x xs ih =>
    refine List.Forall₂.cons ?_ ih
    cases x with
    | none => trivial
    | some a => exact h a

/-- Each record seen through a variant is left as it was or has both project
fields set, and no reference changes; this holds of the state left by a call
however it ended. -/
theorem updateParams_commons {IR : Type} (Hash : String → String) (s : State IR)
    (p : Option String) :
    List.Forall₂ (writtenTogether p Hash) s.commons (updateParams Hash s p).state.commons := by
  simp only [State.commons, updateParams_logger]
  exact writtenTogether_map p Hash _ _ (updateParams_mem Hash s p) _

theorem withProject_withProject {IR : Type} (p o : String) (w : List Addr) (s : State IR) :
    (s.withProject p o w).withProject p o w = s.withProject p o w := by
  simp only [State.withProject, State.mk.injEq, true_and]
  funext a
  by_cases h : a ∈ w <;> simp [h, setProject_setProject]

/-- Properties of the present common parameters carry over a relation on the references. -/
theorem forall_reduceOption_of_forall₂ {α : Type} {R : Option α → Option α → Prop}
    {P : α → Prop} {cs cs' : List (Option α)} (h : List.Forall₂ R cs cs')
    (hR : ∀ c c', R c (some c') → ∃ d, c = some d ∧ (P d → P c'))
    (hP : ∀ c ∈ cs.reduceOption, P c) : ∀ c' ∈ cs'.reduceOption, P c' := by
  induction h with
  | nil => simp
  | @cons c c' cs cs' hcc _ ih =>
    intro x hx
    rw [List.reduceOption_mem_iff, List.mem_cons] at hx
    rcases hx with hx | hx
    · subst hx
      obtain ⟨d, rfl, hd⟩ := hR _ _ hcc
      exact hd (hP d (by simp [List.reduceOption_mem_iff]))
    · refine ih (fun y hy => hP y ?_) x (List.reduceOption_mem_iff.mpr hx)
      rw [List.reduceOption_mem_iff] at hy ⊢
      exact List.mem_cons_of_mem _ hy

/-- After a call that returns, the record referred to by every populated variant
among image import, image export, instance import, machine-image import and
one-step image import has `Project == p` and `ObfuscatedProject == Hash(p)`, and
the logger, with the references it holds, is as before. -/
theorem updateParams_patches_written {IR : Type} (Hash : String → String)
    (s s' : State IR) (p : String) (h : updateParams Hash s (some p) = .returned s') :
    s'.logger = s.logger ∧ commonParamsPresent s.logger ∧
    ∀ a ∈ s.logger.writtenAddrs,
      (s'.mem a).Project = p ∧ (s'.mem a).ObfuscatedProject = Hash p := by
  obtain ⟨hp, rfl⟩ := (updateParams_returned_iff Hash s s' p).mp h
  refine ⟨rfl, hp, fun a ha => ?_⟩
  simp [State.withProject, ha, CommonParams.setProject]

/-! ## Properties of `updateParams` -/

/-- C1 (evaluation at the failing inputs): with only the windows-upgrade, only the
instance-export or only the machine-image-export variant populated, `updateParams`
with project `"proj-42"` returns the state unchanged; the populated variant keeps
an empty `Project` and an empty `ObfuscatedProject`. -/
theorem updateParams_skips_three_variants :
    updateParams sampleHash windowsUpgradeState (some "proj-42")
      = .returned windowsUpgradeState ∧
    updateParams sampleHash instanceExportState (some "proj-42")
      = .returned instanceExportState ∧
    updateParams sampleHash machineImageExportState (some "proj-42")
      = .returned machineImageExportState ∧
    windowsUpgradeState.commonParams.map
      (fun c => (c.Project, c.ObfuscatedProject)) = [("", "")] ∧
    instanceExportState.commonParams.map
      (fun c => (c.Project, c.ObfuscatedProject)) = [("", "")] ∧
    machineImageExportState.commonParams.map
      (fun c => (c.Project, c.ObfuscatedProject)) = [("", "")] :=
  ⟨rfl, rfl, rfl, rfl, rfl, rfl⟩

/-- C2: `updateParams` with an absent (nil) project identifier returns the state
unchanged, for every logger state; in particular it returns unchanged the state
left by an earlier call with a project identifier. -/
theorem updateParams_nil_project {IR : Type} (Hash : String → String) (s : State IR)
    (p : String) :
    updateParams Hash s none = .returned s ∧
    updateParams Hash (updateParams Hash s (some p)).state none
      = .returned (updateParams Hash s (some p)).state :=
  ⟨rfl, rfl⟩

/-- C3: when no variant of the parameter union is populated, `updateParams` with
any project identifier, absent or not, returns (it does not panic) and leaves the
state unchanged. -/
theorem updateParams_noVariant {IR : Type} (Hash : String → String) (s : State IR)
    (p : Option String) (h : s.logger.Params.noVariant) :
    updateParams Hash s p = .returned s := by
  obtain ⟨⟨⟨a, b, c, d, e, f, g, i⟩⟩, m⟩ := s
  obtain ⟨rfl, rfl, rfl, rfl, rfl, rfl, rfl, rfl⟩ := h
  cases p <;> rfl

/-- C3 (witness): the logger with no variant populated, patched with `"proj-42"`. -/
theorem updateParams_noVariant_witness :
    emptyState.logger.Params.noVariant ∧
    updateParams sampleHash emptyState (some "proj-42") = .returned emptyState :=
  ⟨by decide, updateParams_noVariant sampleHash emptyState (some "proj-42") (by decide)⟩

/-- C4: `updateParams` is idempotent: if `updateParams(p)` returns with state `s'`,
then `updateParams(p)` on `s'` returns with the same state `s'`. -/
theorem updateParams_idempotent {IR : Type} (Hash : String → String) (s s' : State IR)
    (p : Option String) (h : updateParams Hash s p = .returned s') :
    updateParams Hash s' p = .returned s' := by
  cases p with
  | none => rfl
  | some p =>
    obtain ⟨hl, rfl⟩ := (updateParams_returned_iff Hash s s' p).mp h
    rw [updateParams_returned_iff]
    refine ⟨hl, ?_⟩
    exact (withProject_withProject p (Hash p) s.logger.writtenAddrs s).symm

/-- C4 (witness): patching the image-import logger with `"proj-42"` twice. -/
theorem updateParams_idempotent_witness :
    updateParams sampleHash imageImportState (some "proj-42")
      = .returned imageImportStatePatched ∧
    updateParams sampleHash imageImportStatePatched (some "proj-42")
      = .returned imageImportStatePatched :=
  ⟨rfl, updateParams_idempotent sampleHash imageImportState imageImportStatePatched
    (some "proj-42") rfl⟩

/-- C5 (counterexample): with the image-import variant populated and its embedded
common-parameters pointer nil, `updateParams` with project `"proj-42"` panics; it
does not return. -/
theorem updateParams_nil_common_panics :
    updateParams sampleHash nilCommonState (some "proj-42") = .panicked nilCommonState ∧
    ¬ ∃ s', updateParams sampleHash nilCommonState (some "proj-42") = .returned s' := by
  have h : updateParams sampleHash nilCommonState (some "proj-42")
      = .panicked nilCommonState := rfl
  refine ⟨h, ?_⟩
  rintro ⟨s', hs'⟩
  rw [h] at hs'
  cases hs'

/-- C5 (amended): `updateParams` returns without a panic exactly when the project
identifier is absent or every populated variant among image import, image export,
instance import, machine-image import and one-step image import has its embedded
common-parameters pointer set; absent variants are skipped. -/
theorem updateParams_returns_iff {IR : Type} (Hash : String → String) (s : State IR)
    (p : Option String) :
    (∃ s', updateParams Hash s p = .returned s') ↔
      (p = none ∨ commonParamsPresent s.logger) := by
  cases p with
  | none => exact ⟨fun _ => Or.inl rfl, fun _ => ⟨s, rfl⟩⟩
  | some p =>
    constructor
    · rintro ⟨s', h⟩
      exact Or.inr ((updateParams_returned_iff Hash s s' p).mp h).1
    · rintro (h | h)
      · cases h
      · exact ⟨_, (updateParams_returned_iff Hash s _ p).mpr ⟨h, rfl⟩⟩

/-- C6: if before the call every populated variant satisfies
`ObfuscatedProject == Hash(Project)`, then so does every populated variant of the
state the call leaves, for any project identifier; and for each variant the call
either leaves its common parameters as they are or writes both `Project` and
`ObfuscatedProject`, to `p` and `Hash(p)`. -/
theorem updateParams_hashConsistent {IR : Type} (Hash : String → String) (s : State IR)
    (p : Option String) (h : hashConsistent Hash s) :
    hashConsistent Hash (updateParams Hash s p).state ∧
    List.Forall₂ (writtenTogether p Hash) s.commons
      (updateParams Hash s p).state.commons := by
  refine ⟨?_, updateParams_commons Hash s p⟩
  refine forall_reduceOption_of_forall₂ (updateParams_commons Hash s p) ?_ h
  intro c c' hcc
  cases c with
  | none => simp [writtenTogether] at hcc
  | some d =>
    refine ⟨d, rfl, fun hd => ?_⟩
    rcases hcc with rfl | ⟨q, -, rfl⟩
    · exact hd
    · rfl

/-- C6 (witness): the patched image-import logger, patched again with `"proj-43"`. -/
theorem updateParams_hashConsistent_witness :
    hashConsistent sampleHash imageImportStatePatched ∧
    (hashConsistent sampleHash
        (updateParams sampleHash imageImportStatePatched (some "proj-43")).state ∧
      List.Forall₂ (writtenTogether (some "proj-43") sampleHash)
        imageImportStatePatched.commons
        (updateParams sampleHash imageImportStatePatched (some "proj-43")).state.commons) :=
  ⟨by decide,
   updateParams_hashConsistent sampleHash imageImportStatePatched (some "proj-43")
     (by decide)⟩

/-- C7 (counterexample): the image-import logger with empty `Project` and
`ObfuscatedProject` satisfies the invariant; `updateParams` with a pointer to the
empty string leaves `Project` empty and `ObfuscatedProject` equal to the hash of
the empty string, which is not empty, and the invariant fails. -/
theorem updateParams_empty_project_breaks_invariant :
    obfuscatedImpliesProject imageImportState ∧
    updateParams sampleHash imageImportState (some "")
      = .returned imageImportStateEmptyProject ∧
    ¬ obfuscatedImpliesProject imageImportStateEmptyProject :=
  ⟨by decide, rfl, by decide⟩

/-- C7 (amended): starting from a state in which every populated variant with a
non-empty `ObfuscatedProject` has a non-empty `Project`, the state left by
`updateParams` has the same property when the project identifier is absent, or is
a non-empty string, or is the empty string and `Hash` maps the empty string to
itself. -/
theorem updateParams_obfuscatedImpliesProject {IR : Type} (Hash : String → String)
    (s : State IR) (p : Option String) (hp : p = some "" → Hash "" = "")
    (h : obfuscatedImpliesProject s) :
    obfuscatedImpliesProject (updateParams Hash s p).state := by
  refine forall_reduceOption_of_forall₂ (updateParams_commons Hash s p) ?_ h
  intro c c' hcc
  cases c with
  | none => simp [writtenTogether] at hcc
  | some d =>
    refine ⟨d, rfl, fun hd => ?_⟩
    rcases hcc with rfl | ⟨q, hq, rfl⟩
    · exact hd
    · intro hne hq'
      simp only at hne hq'
      subst hq'
      exact hne (hp hq)

/-- C7 (witness): the image-import logger patched with `"proj-42"`. -/
theorem updateParams_obfuscatedImpliesProject_witness :
    (some "proj-42" = some "" → sampleHash "" = "") ∧
    obfuscatedImpliesProject imageImportState ∧
    obfuscatedImpliesProject
      (updateParams sampleHash imageImportState (some "proj-42")).state :=
  ⟨by decide, by decide,
   updateParams_obfuscatedImpliesProject sampleHash imageImportState (some "proj-42")
     (by decide) (by decide)⟩

/-- C10 (counterexample): with the image-import and windows-upgrade variants both
populated and their embedded pointers referring to one `CommonParams` record,
`updateParams` with project `"proj-42"` returns, and the `Project` and
`ObfuscatedProject` seen through the windows-upgrade variant change from empty
to `"proj-42"` and its hash. -/
theorem updateParams_changes_shared_windowsUpgrade :
    updateParams sampleHash sharedState (some "proj-42") = .returned sharedStatePatched ∧
    (sharedState.logger.Params.WindowsUpgradeParams.bind (fun v => v.CommonParams)).map
      (fun a => ((sharedState.mem a).Project, (sharedState.mem a).ObfuscatedProject))
      = some ("", "") ∧
    (sharedStatePatched.logger.Params.WindowsUpgradeParams.bind
        (fun v => v.CommonParams)).map
      (fun a => ((sharedStatePatched.mem a).Project,
        (sharedStatePatched.mem a).ObfuscatedProject))
      = some ("proj-42", "sha256:proj-42") :=
  ⟨rfl, rfl, rfl⟩

/-- C10 (amended): if `updateParams` returns with state `s'`, the only values that
can differ from the state before are the `Project` and `ObfuscatedProject` fields
of the `CommonParams` records referred to by the image-import, image-export,
instance-import, machine-image-import and one-step-image-import variants: the
logger (which variants are populated, every action-specific field, every embedded
reference) is identical, every `CommonParams` record agrees with its old value
outside those two fields, and every record not referred to by one of those five
variants is identical; so the records of the windows-upgrade, instance-export and
machine-image-export variants are identical, their `Project` and
`ObfuscatedProject` included, whenever they are not shared with one of the five
written variants. -/
theorem updateParams_frame {IR : Type} (Hash : String → String) (s s' : State IR)
    (p : Option String) (h : updateParams Hash s p = .returned s') :
    s'.logger = s.logger ∧
    (∀ a, (s'.mem a).eraseProject = (s.mem a).eraseProject) ∧
    (∀ a, a ∉ s.logger.writtenAddrs → s'.mem a = s.mem a) ∧
    (∀ a ∈ s.logger.unwrittenAddrs, a ∉ s.logger.writtenAddrs → s'.mem a = s.mem a) := by
  cases p with
  | none =>
    cases h
    exact ⟨rfl, fun _ => rfl, fun _ _ => rfl, fun _ _ _ => rfl⟩
  | some p =>
    obtain ⟨-, rfl⟩ := (updateParams_returned_iff Hash s s' p).mp h
    refine ⟨rfl, fun a => ?_, fun a ha => ?_, fun a _ ha => ?_⟩
    · by_cases ha : a ∈ s.logger.writtenAddrs <;>
        simp [State.withProject, ha, CommonParams.setProject, CommonParams.eraseProject]
    · simp [State.withProject, ha]
    · simp [State.withProject, ha]

/-- C10 (witness): image import and windows upgrade populated with records of
their own, at addresses 0 and 1, patched with `"proj-42"`. -/
theorem updateParams_frame_witness :
    updateParams sampleHash separateState (some "proj-42")
      = .returned separateStatePatched ∧
    separateStatePatched.logger = separateState.logger ∧
    1 ∈ separateState.logger.unwrittenAddrs ∧
    1 ∉ separateState.logger.writtenAddrs ∧
    separateStatePatched.mem 1 = separateState.mem 1 :=
  ⟨rfl,
   (updateParams_frame sampleHash separateState separateStatePatched (some "proj-42") rfl).1,
   by decide, by decide,
   (updateParams_frame sampleHash separateState separateStatePatched
     (some "proj-42") rfl).2.2.2 1 (by decide) (by decide)⟩

/-! ## Lemmas on the JSON encoding -/

end Service
